import Mathlib

/-!
Verification of the SeaVerse chat SDK's WebSocket transport and protocol
normalization layer (`packages/chat/src/types.ts`,
`packages/chat/src/internal/normalizer.ts`).

The embedding is shallow: the transport's mutable fields become an explicit
`TransportState`, listener callbacks (which are opaque host functions) are
represented by the observable notifications the transport would issue to
them, and JavaScript exceptions become `Except`.  Impure bookkeeping fields
of produced messages (`id` from `generateId`, `createdAt` from `Date.now()`,
and the debug-only `raw` payload) are not modelled; no claim depends on
them.  JavaScript truthiness (`||`, `if (chunk)`) is modelled explicitly
where the source relies on it.
-/

set_option autoImplicit false

namespace SeaverseChat

/-- Application-level message as produced by the normalizer or the streaming
sub-machine (source: `Message` in `types.ts`, minus impure `id`/`createdAt`
and the debug `raw` payload). -/
structure Message where
  conversationId : String
  role : String
  content : String
  deriving DecidableEq

/-- One content block of an `assistant` frame (source: `ContentBlock` in
`internal/protocol.ts`).  The source is a tagged union; we keep the tag as a
string and the possible text fields as options so that the defensive
`'text' in block` check of the normalizer is representable. -/
structure ContentBlock where
  type : String
  text : Option String := none
  thinking : Option String := none
  deriving DecidableEq

/-- The `delta` object of a `content_block_delta` stream event (source:
`StreamEventBlock.delta`). -/
structure Delta where
  type : String
  text : Option String := none
  thinking : Option String := none
  deriving DecidableEq

/-- The `event` object of a `stream_event` frame (source:
`StreamEventBlock`).  `otherEvent` covers any `type` value outside the three
recognized ones, which the transport silently ignores. -/
inductive StreamEventBlock where
  | content_block_start
  | content_block_delta (delta : Option Delta)
  | content_block_stop
  | otherEvent (type : String)
  deriving DecidableEq

/-- The `media` payload of a `media_result` frame. -/
structure MediaPayload where
  images : List String
  videos : List String
  audios : List String
  deriving DecidableEq

/-- Fields of a `system` frame used by the transport (source:
`SystemMessage` in `internal/protocol.ts`). -/
structure SystemFields where
  subtype : String
  session_id : String
  model : Option String := none
  seaverse_version : Option String := none
  agents : Option (List String) := none
  tools : Option (List String) := none
  skills : Option (List String) := none
  deriving DecidableEq

/-- Server→client frame (source: `ServerMessage` union in
`internal/protocol.ts`).  `unknown` stands for any frame whose `type` is not
one of the recognized ones; `assistant`'s content is optional because the
normalizer defends against a missing/non-array `content`. -/
inductive ServerMessage where
  | assistant (content : Option (List ContentBlock))
  | media_result (tool_use_id : String) (media : MediaPayload)
  | result (subtype : String) (result : String) (is_error : Bool)
  | system (fields : SystemFields)
  | error (error : String)
  | session_initialized (conversation_id : String)
  | stream_event (event : StreamEventBlock)
  | unknown (type : String)
  deriving DecidableEq

/-- JavaScript `a || b` on a possibly-absent string: `undefined` and the
empty string are falsy. -/
def jsOrStr : Option String → String → String
  | some s, fallback => if s = "" then fallback else s
  | none, fallback => fallback

/-- JavaScript `a || b` on a possibly-absent number: `undefined` and `0` are
falsy. -/
def jsOrNat : Option Nat → Nat → Nat
  | some n, fallback => if n = 0 then fallback else n
  | none, fallback => fallback

/-- Right-fold concatenation of a chunk list (`c1 ++ c2 ++ ... ++ cn`). -/
def concatChunks : List String → String
  | [] => ""
  | c :: cs => c ++ concatChunks cs

namespace StreamBuffer

/-- Buffer key for a conversation (source: `StreamBuffer.getKey`). -/
def getKey (conversationId : String) : String :=
  conversationId ++ "_streaming"

end StreamBuffer

/-- The `Map<string, string>` held by `StreamBuffer`, as a partial map. -/
abbrev StreamBufferMap := String → Option String

namespace StreamBuffer

/-- A freshly constructed `StreamBuffer` (empty `Map`). -/
def empty : StreamBufferMap := fun _ => none

/-- Source: `StreamBuffer.start` — `this.buffer.set(key, '')`. -/
def start (b : StreamBufferMap) (conversationId : String) : StreamBufferMap :=
  fun k => if k = getKey conversationId then some "" else b k

/-- Source: `StreamBuffer.append` — reads the current value (defaulting to
`''` when the key is absent), appends the chunk, stores and returns the
updated string. -/
def append (b : StreamBufferMap) (conversationId chunk : String) :
    StreamBufferMap × String :=
  let key := getKey conversationId
  let current := (b key).getD ""
  let updated := current ++ chunk
  (fun k => if k = key then some updated else b k, updated)

/-- Source: `StreamBuffer.complete` — reads the accumulated value
(defaulting to `''`), deletes the entry, returns the value. -/
def complete (b : StreamBufferMap) (conversationId : String) :
    StreamBufferMap × String :=
  let key := getKey conversationId
  let content := (b key).getD ""
  (fun k => if k = key then none else b k, content)

/-- Source: `StreamBuffer.get` — current value without clearing. -/
def get (b : StreamBufferMap) (conversationId : String) : String :=
  (b (getKey conversationId)).getD ""

/-- `append` iterated over a list of chunks, threading the buffer state. -/
def appendAll (b : StreamBufferMap) (conversationId : String) :
    List String → StreamBufferMap
  | [] => b
  | c :: cs => appendAll (append b conversationId c).1 conversationId cs

end StreamBuffer

namespace ProtocolNormalizer

/-- Source: `ProtocolNormalizer.normalizeAssistantMessage`.  Missing or
non-array `content` yields no message; otherwise all `text` blocks are
collected and joined with a newline into one assistant message; frames with
no `text` blocks (thinking-only or tool-only) yield no message. -/
def normalizeAssistantMessage (content : Option (List ContentBlock))
    (conversationId : String) : List Message :=
  match content with
  | none => []
  | some blocks =>
    let textBlocks := blocks.filter (fun b => b.type = "text")
    if textBlocks.length > 0 then
      let content := String.intercalate "\n"
        (textBlocks.map (fun b => b.text.getD ""))
      [{ conversationId := conversationId, role := "assistant",
         content := content }]
    else
      []

/-- Source: `ProtocolNormalizer.normalizeMediaMessage`. -/
def normalizeMediaMessage (conversationId : String) : List Message :=
  [{ conversationId := conversationId, role := "assistant",
     content := "Generated media file" }]

/-- Source: `ProtocolNormalizer.normalizeResultMessage`.  An error result
(`subtype === 'error'` or truthy `is_error`) throws
`Error(msg.result || 'Unknown error')`; otherwise one assistant message
carrying the result string is produced. -/
def normalizeResultMessage (subtype result : String) (is_error : Bool)
    (conversationId : String) : Except String (List Message) :=
  if subtype = "error" ∨ is_error then
    .error (if result = "" then "Unknown error" else result)
  else
    .ok [{ conversationId := conversationId, role := "assistant",
           content := result }]

/-- Source: `ProtocolNormalizer.normalize`.  The `Except` error carries the
message string of the JavaScript `Error` the source would throw.  `system`
and `session_initialized` produce no message; the `default` branch (any
unrecognized type — including `stream_event`, which the transport
intercepts before ever calling `normalize`) silently produces none. -/
def normalize (serverMsg : ServerMessage) (conversationId : String) :
    Except String (List Message) :=
  match serverMsg with
  | .assistant content => .ok (normalizeAssistantMessage content conversationId)
  | .media_result _ _ => .ok (normalizeMediaMessage conversationId)
  | .result subtype result is_error =>
      normalizeResultMessage subtype result is_error conversationId
  | .system _ => .ok []
  | .error e => .error e
  | .session_initialized _ => .ok []
  | .stream_event _ => .ok []
  | .unknown _ => .ok []

end ProtocolNormalizer

/-- Which optional members of a `StreamCallbacks` object a listener actually
supplied; the transport's optional-chaining calls
(`listener.streamCallbacks?.onChunk?.(...)`) only reach the supplied ones. -/
structure StreamCallbackPresence where
  onChunk : Bool := false
  onComplete : Bool := false
  onError : Bool := false
  onSystem : Bool := false
  deriving DecidableEq

/-- Source: `ListenerEntry` in `types.ts`.  The main callback is a host
function; we identify it by an opaque label so that registering the same
function twice is expressible. -/
structure ListenerEntry where
  id : Nat
  callback : Nat
  streamCallbacks : Option StreamCallbackPresence := none
  deriving DecidableEq

/-- The error values the transport hands to `onError` (source: `errors.ts`;
each variant keeps the payload fields of the corresponding class). -/
inductive ChatErr where
  | parseError (message : String) (rawData : String)
  | streamError (message : String) (conversationId : String)
  | connectionError (message : String)
  | connectionTimeoutError (timeout : Nat)
  deriving DecidableEq

/-- The `SystemInfo` object broadcast to `onSystem` (source:
`handleSystemMessage`). -/
structure SystemInfo where
  sessionId : String
  model : Option String
  version : Option String
  agents : Option (List String)
  tools : Option (List String)
  skills : Option (List String)
  deriving DecidableEq

/-- One observable callback invocation issued by the transport, tagged with
the receiving listener's id (and, for the main callback, its function
label). -/
inductive Notification where
  | callback (listenerId : Nat) (cb : Nat) (msg : Message)
  | onChunk (listenerId : Nat) (chunk : String)
  | onComplete (listenerId : Nat)
  | onError (listenerId : Nat) (err : ChatErr)
  | onSystem (listenerId : Nat) (info : SystemInfo)
  deriving DecidableEq

/-- The mutable fields of `WebSocketTransport` that inbound-frame handling
reads or writes (`listeners`, `nextListenerId`, `streamBuffer`,
`conversationId`). -/
structure TransportState where
  listeners : List ListenerEntry
  nextListenerId : Nat
  streamBuffer : StreamBufferMap
  conversationId : String

namespace WebSocketTransport

/-- `this.listeners.forEach(l => l.callback(msg))` — the main callback is
mandatory, every listener is invoked. -/
def broadcastMessage (ls : List ListenerEntry) (msg : Message) :
    List Notification :=
  ls.map fun l => .callback l.id l.callback msg

/-- `this.listeners.forEach(l => l.streamCallbacks?.onChunk?.(chunk))`. -/
def broadcastChunk (ls : List ListenerEntry) (chunk : String) :
    List Notification :=
  ls.filterMap fun l =>
    match l.streamCallbacks with
    | some sc => if sc.onChunk then some (.onChunk l.id chunk) else none
    | none => none

/-- `this.listeners.forEach(l => l.streamCallbacks?.onComplete?.())`. -/
def broadcastComplete (ls : List ListenerEntry) : List Notification :=
  ls.filterMap fun l =>
    match l.streamCallbacks with
    | some sc => if sc.onComplete then some (.onComplete l.id) else none
    | none => none

/-- `this.listeners.forEach(l => l.streamCallbacks?.onError?.(err))`. -/
def broadcastError (ls : List ListenerEntry) (err : ChatErr) :
    List Notification :=
  ls.filterMap fun l =>
    match l.streamCallbacks with
    | some sc => if sc.onError then some (.onError l.id err) else none
    | none => none

/-- `this.listeners.forEach(l => l.streamCallbacks?.onSystem?.(info))`. -/
def broadcastSystem (ls : List ListenerEntry) (info : SystemInfo) :
    List Notification :=
  ls.filterMap fun l =>
    match l.streamCallbacks with
    | some sc => if sc.onSystem then some (.onSystem l.id info) else none
    | none => none

/-- Source: `WebSocketTransport.onMessage`.  Pushes an entry under a fresh
id (`this.nextListenerId++`) and returns that id; the returned JS closure
is modelled by `unsubscribe` applied to this id. -/
def onMessage (st : TransportState) (cb : Nat)
    (streamCallbacks : Option StreamCallbackPresence) :
    TransportState × Nat :=
  let id := st.nextListenerId
  ({ st with
      listeners := st.listeners ++
        [{ id := id, callback := cb, streamCallbacks := streamCallbacks }],
      nextListenerId := id + 1 },
   id)

/-- The closure returned by `onMessage`:
`this.listeners = this.listeners.filter(l => l.id !== id)`. -/
def unsubscribe (st : TransportState) (id : Nat) : TransportState :=
  { st with listeners := st.listeners.filter (fun l => l.id ≠ id) }

/-- Source: `WebSocketTransport.handleStreamEvent`.  Start resets the
conversation's buffer; a delta appends its (truthy) text or thinking
payload and broadcasts the raw chunk to `onChunk`; stop drains the buffer,
synthesizes an assistant message, and broadcasts `onComplete` to every
listener before broadcasting the message to every main callback. -/
def handleStreamEvent (st : TransportState) (event : StreamEventBlock) :
    TransportState × List Notification :=
  let conversationId := st.conversationId
  match event with
  | .content_block_start =>
    ({ st with streamBuffer := StreamBuffer.start st.streamBuffer conversationId },
     [])
  | .content_block_delta delta =>
    match delta with
    | none => (st, [])
    | some d =>
      let chunk :=
        if d.type = "text_delta" ∧ (d.text.getD "") ≠ "" then d.text.getD ""
        else if d.type = "thinking_delta" ∧ (d.thinking.getD "") ≠ "" then
          d.thinking.getD ""
        else ""
      if chunk ≠ "" then
        let r := StreamBuffer.append st.streamBuffer conversationId chunk
        ({ st with streamBuffer := r.1 },
         broadcastChunk st.listeners chunk)
      else
        (st, [])
  | .content_block_stop =>
    let r := StreamBuffer.complete st.streamBuffer conversationId
    let message : Message :=
      { conversationId := conversationId, role := "assistant", content := r.2 }
    ({ st with streamBuffer := r.1 },
     broadcastComplete st.listeners ++ broadcastMessage st.listeners message)
  | .otherEvent _ => (st, [])

/-- Source: `WebSocketTransport.handleSystemMessage`. -/
def handleSystemMessage (st : TransportState) (msg : SystemFields) :
    TransportState × List Notification :=
  (st,
   broadcastSystem st.listeners
     { sessionId := msg.session_id, model := msg.model,
       version := msg.seaverse_version, agents := msg.agents,
       tools := msg.tools, skills := msg.skills })

/-- An inbound `ws.onmessage` payload: either a string that fails
`JSON.parse` (with the host's parse-error message) or a decoded frame.  The
raw string is carried in both cases because `ParseError` records it. -/
inductive RawPayload where
  | invalidJson (parseErrMsg : String) (raw : String)
  | frame (msg : ServerMessage) (raw : String)
  deriving DecidableEq

/-- Source: `WebSocketTransport.handleMessage`.  `stream_event` and
`system` frames are routed before normalization; other frames are
normalized and each produced message is broadcast to every main callback.
Any exception (JSON parse failure, or a throw out of `normalize`) is caught
and re-broadcast to `onError` as a `ParseError` carrying the raw payload;
nothing propagates to the caller. -/
def handleMessage (st : TransportState) (payload : RawPayload) :
    TransportState × List Notification :=
  match payload with
  | .invalidJson parseErrMsg raw =>
    (st, broadcastError st.listeners (.parseError parseErrMsg raw))
  | .frame serverMsg raw =>
    match serverMsg with
    | .stream_event event => handleStreamEvent st event
    | .system fields => handleSystemMessage st fields
    | _ =>
      match ProtocolNormalizer.normalize serverMsg st.conversationId with
      | .ok messages =>
        (st, messages.flatMap (broadcastMessage st.listeners))
      | .error e =>
        (st, broadcastError st.listeners (.parseError e raw))

/-- Frames processed strictly in arrival order, notification traces
concatenated. -/
def processPayloads (st : TransportState) :
    List RawPayload → TransportState × List Notification
  | [] => (st, [])
  | p :: ps =>
    let r1 := handleMessage st p
    let r2 := processPayloads r1.1 ps
    (r2.1, r1.2 ++ r2.2)

end WebSocketTransport

/-- Fully resolved retry configuration (source: `Required<RetryConfig>`). -/
structure RetryConfig where
  maxRetries : Nat
  initialDelay : Nat
  maxDelay : Nat
  backoffMultiplier : Nat
  deriving DecidableEq

/-- A constructor-time `RetryConfig` argument with optional fields. -/
structure RetryConfigOpt where
  maxRetries : Option Nat := none
  initialDelay : Option Nat := none
  maxDelay : Option Nat := none
  backoffMultiplier : Option Nat := none
  deriving DecidableEq

namespace WebSocketTransport

/-- Source: the `??` merge in the `WebSocketTransport` constructor. -/
def resolveRetryConfig (rc : Option RetryConfigOpt) : RetryConfig :=
  { maxRetries := (rc.bind RetryConfigOpt.maxRetries).getD 2,
    initialDelay := (rc.bind RetryConfigOpt.initialDelay).getD 1000,
    maxDelay := (rc.bind RetryConfigOpt.maxDelay).getD 60000,
    backoffMultiplier := (rc.bind RetryConfigOpt.backoffMultiplier).getD 2 }

/-- Source: `WebSocketTransport.getRetryDelay` —
`Math.min(initialDelay * backoffMultiplier ** attempt, maxDelay)`. -/
def getRetryDelay (cfg : RetryConfig) (attempt : Nat) : Nat :=
  min (cfg.initialDelay * cfg.backoffMultiplier ^ attempt) cfg.maxDelay

/-- Outcome of one `attemptConnect` call, supplied by the environment
(socket open vs. error/timeout, with the rejection's error rendered as a
string). -/
inductive AttemptResult where
  | success
  | failure (err : String)
  deriving DecidableEq

/-- Observable behavior of one `connect()` call: how many attempts were
made, which sleeps were taken between them, and the rejection error if the
promise rejected (`none` = resolved). -/
structure ConnectTrace where
  attemptsMade : Nat
  delays : List Nat
  rejectedWith : Option String
  deriving DecidableEq

/-- Source: the `while (this.currentRetry <= this.retryConfig.maxRetries)`
loop of `connect`.  `fuel` only bounds the recursion: the loop body either
returns or increments `currentRetry`, so `maxRetries + 1 - currentRetry`
iterations always suffice, and the fuel-exhausted branch coincides with the
loop-condition-false branch. -/
def connectLoop (cfg : RetryConfig) (env : Nat → AttemptResult) :
    Nat → Nat → ConnectTrace
  | _, 0 => { attemptsMade := 0, delays := [], rejectedWith := none }
  | currentRetry, fuel + 1 =>
    if currentRetry ≤ cfg.maxRetries then
      match env currentRetry with
      | .success => { attemptsMade := 1, delays := [], rejectedWith := none }
      | .failure err =>
        if cfg.maxRetries ≤ currentRetry then
          { attemptsMade := 1, delays := [], rejectedWith := some err }
        else
          let delay := getRetryDelay cfg currentRetry
          let rest := connectLoop cfg env (currentRetry + 1) fuel
          { attemptsMade := 1 + rest.attemptsMade,
            delays := delay :: rest.delays,
            rejectedWith := rest.rejectedWith }
    else
      { attemptsMade := 0, delays := [], rejectedWith := none }

/-- Source: `WebSocketTransport.connect` — resets `currentRetry` to 0 and
runs the retry loop. -/
def connect (cfg : RetryConfig) (env : Nat → AttemptResult) : ConnectTrace :=
  connectLoop cfg env 0 (cfg.maxRetries + 1)

end WebSocketTransport

/-- Public (all-optional) session configuration (source: `SessionConfig`
in `types.ts`). -/
structure SessionConfig where
  model : Option String := none
  max_turns : Option Nat := none
  deriving DecidableEq

/-- Protocol-level resolved session configuration carried by
`init_session` (source: `SessionConfig` in `internal/protocol.ts`). -/
structure ResolvedSessionConfig where
  model : String
  max_turns : Nat
  deriving DecidableEq

namespace WebSocketTransport

/-- Source: the config merge in `attemptConnect`'s `ws.onopen` handler:
`sessionConfig?.model || this.defaultSessionConfig?.model ||
'claude-sonnet-4'` and likewise `max_turns` with fallback `100` — a
JavaScript `||` chain, so falsy supplied values fall through. -/
def mergeSessionConfig (sessionConfig defaultSessionConfig : Option SessionConfig) :
    ResolvedSessionConfig :=
  { model :=
      jsOrStr (sessionConfig.bind SessionConfig.model)
        (jsOrStr (defaultSessionConfig.bind SessionConfig.model)
          "claude-sonnet-4"),
    max_turns :=
      jsOrNat (sessionConfig.bind SessionConfig.max_turns)
        (jsOrNat (defaultSessionConfig.bind SessionConfig.max_turns) 100) }

end WebSocketTransport

/-- A listener that supplied every stream callback. -/
def sampleListener : ListenerEntry :=
  { id := 1, callback := 0,
    streamCallbacks :=
      some { onChunk := true, onComplete := true, onError := true,
             onSystem := true } }

/-- A transport state with one fully-subscribed listener. -/
def sampleState : TransportState :=
  { listeners := [sampleListener], nextListenerId := 2,
    streamBuffer := StreamBuffer.empty, conversationId := "c" }

/-- A transport state with no listeners (fresh transport). -/
def freshState : TransportState :=
  { listeners := [], nextListenerId := 1,
    streamBuffer := StreamBuffer.empty, conversationId := "c" }

/-! ### Helper lemmas -/

/-- The value accumulated under a conversation's key after a run of
`append`s: the prior value (empty-string baseline when absent) followed by
the concatenation of the chunks. -/
theorem appendAll_getKey (b : StreamBufferMap) (cid : String) :
    ∀ chunks : List String,
      ((StreamBuffer.appendAll b cid chunks) (StreamBuffer.getKey cid)).getD ""
        = (b (StreamBuffer.getKey cid)).getD "" ++ concatChunks chunks := by
  intro chunks
  induction chunks generalizing b with
  | nil => simp [StreamBuffer.appendAll, concatChunks]
  | cons c cs ih =>
    simp only [StreamBuffer.appendAll, concatChunks]
    rw [ih]
    simp [StreamBuffer.append, String.append_assoc]

/-- `onError` broadcasts contain no main-callback notification. -/
theorem callback_not_mem_broadcastError (ls : List ListenerEntry)
    (err : ChatErr) (id cb : Nat) (m : Message) :
    Notification.callback id cb m ∉ WebSocketTransport.broadcastError ls err := by
  intro hmem
  rw [WebSocketTransport.broadcastError, List.mem_filterMap] at hmem
  obtain ⟨l, -, hl⟩ := hmem
  cases hsc : l.streamCallbacks with
  | none => rw [hsc] at hl; simp at hl
  | some sc =>
    rw [hsc] at hl
    by_cases hc : sc.onError <;> simp [hc] at hl

/-! ### Claims -/

/-- C4: for every conversation id and chunk sequence, `start` then the
`append`s then `complete` returns the chunks' concatenation and deletes the
entry (a second `complete` returns the empty string); and `append`/
`complete` without a prior `start` behave on an empty-string baseline
rather than raising an error. -/
theorem stream_buffer_lifecycle (b0 : StreamBufferMap) (cid : String)
    (chunks : List String) :
    (StreamBuffer.complete
        (StreamBuffer.appendAll (StreamBuffer.start b0 cid) cid chunks) cid).2
      = concatChunks chunks
  ∧ (StreamBuffer.complete
        (StreamBuffer.complete
          (StreamBuffer.appendAll (StreamBuffer.start b0 cid) cid chunks)
          cid).1 cid).2 = ""
  ∧ (StreamBuffer.complete StreamBuffer.empty cid).2 = ""
  ∧ (StreamBuffer.complete
        (StreamBuffer.appendAll StreamBuffer.empty cid chunks) cid).2
      = concatChunks chunks := by
  refine ⟨?_, ?_, ?_, ?_⟩
  · rw [StreamBuffer.complete]
    rw [appendAll_getKey]
    simp [StreamBuffer.start]
  · simp [StreamBuffer.complete]
  · simp [StreamBuffer.complete, StreamBuffer.empty]
  · rw [StreamBuffer.complete]
    rw [appendAll_getKey]
    simp [StreamBuffer.empty]

/-- C5: an `assistant` frame yields exactly one assistant message joining
its `text` blocks' texts with a newline whenever at least one `text` block
is present; with no `text` blocks (thinking-only, tool-only) or no content
array at all it yields the empty list and no error. -/
theorem assistant_frame_normalization (blocks : List ContentBlock)
    (cid : String) :
    (blocks.filter (fun b => b.type = "text") ≠ [] →
      ProtocolNormalizer.normalize (.assistant (some blocks)) cid
        = .ok [{ conversationId := cid, role := "assistant",
                 content := String.intercalate "\n"
                   ((blocks.filter (fun b => b.type = "text")).map
                     (fun b => b.text.getD "")) }])
  ∧ (blocks.filter (fun b => b.type = "text") = [] →
      ProtocolNormalizer.normalize (.assistant (some blocks)) cid = .ok [])
  ∧ ProtocolNormalizer.normalize (.assistant none) cid = .ok [] := by
  refine ⟨?_, ?_, rfl⟩
  · intro h
    simp only [ProtocolNormalizer.normalize,
      ProtocolNormalizer.normalizeAssistantMessage]
    rw [if_pos (List.length_pos.mpr h)]
  · intro h
    rw [ProtocolNormalizer.normalize, ProtocolNormalizer.normalizeAssistantMessage]
    simp [h]

/-- C5 witness: a frame with blocks text "hi", thinking, text "yo"
normalizes to one assistant message with content "hi\nyo". -/
theorem assistant_frame_normalization_witness :
    ProtocolNormalizer.normalize
        (.assistant (some [⟨"text", some "hi", none⟩,
          ⟨"thinking", none, some "t"⟩, ⟨"text", some "yo", none⟩])) "c"
      = .ok [{ conversationId := "c", role := "assistant",
               content := "hi\nyo" }] := by
  have h := (assistant_frame_normalization
    [⟨"text", some "hi", none⟩, ⟨"thinking", none, some "t"⟩,
      ⟨"text", some "yo", none⟩] "c").1 (by decide)
  rw [h]; rfl

/-- C9: an unrecognized frame type produces no messages and no error, the
transport state is untouched, and a subsequent `assistant` frame with one
text block "hi" still delivers exactly one message with content "hi" to
every listener's main callback. -/
theorem unknown_frame_resilience (st : TransportState) (ty raw raw2 : String) :
    ProtocolNormalizer.normalize (.unknown ty) st.conversationId = .ok []
  ∧ (WebSocketTransport.handleMessage st (.frame (.unknown ty) raw)).2 = []
  ∧ (WebSocketTransport.handleMessage st (.frame (.unknown ty) raw)).1 = st
  ∧ (WebSocketTransport.handleMessage
        (WebSocketTransport.handleMessage st (.frame (.unknown ty) raw)).1
        (.frame (.assistant (some [⟨"text", some "hi", none⟩])) raw2)).2
      = st.listeners.map
          (fun l => Notification.callback l.id l.callback
            { conversationId := st.conversationId, role := "assistant",
              content := "hi" }) := by
  refine ⟨rfl, rfl, rfl, ?_⟩
  have hhi : String.intercalate "\n" ["hi"] = "hi" := rfl
  simp [WebSocketTransport.handleMessage, ProtocolNormalizer.normalize,
    ProtocolNormalizer.normalizeAssistantMessage,
    WebSocketTransport.broadcastMessage, hhi]

/-- C2: with `maxRetries = 2`, `initialDelay = 1000`,
`backoffMultiplier = 2`, `maxDelay = 60000`, all-failing attempts give
exactly three attempts, delays `min(1000·2^attempt, 60000)` — 1000ms then
2000ms — and rejection with the third attempt's error. -/
theorem connect_retry_backoff (errs : Nat → String) :
    WebSocketTransport.getRetryDelay
        { maxRetries := 2, initialDelay := 1000, maxDelay := 60000,
          backoffMultiplier := 2 } 0 = 1000
  ∧ WebSocketTransport.getRetryDelay
        { maxRetries := 2, initialDelay := 1000, maxDelay := 60000,
          backoffMultiplier := 2 } 1 = 2000
  ∧ WebSocketTransport.connect
        { maxRetries := 2, initialDelay := 1000, maxDelay := 60000,
          backoffMultiplier := 2 }
        (fun n => .failure (errs n))
      = { attemptsMade := 3, delays := [1000, 2000],
          rejectedWith := some (errs 2) } := by
  refine ⟨rfl, rfl, rfl⟩

/-- C6 counterexample: the caller supplies `max_turns = 0`, but the merged
config sends `100` — the JavaScript `||` chain treats falsy supplied values
as unsupplied, contradicting "whenever the caller supplies a value ... that
exact value is sent". -/
theorem session_config_precedence_cex :
    (WebSocketTransport.mergeSessionConfig
        (some { model := none, max_turns := some 0 }) none).max_turns = 100
  ∧ (WebSocketTransport.mergeSessionConfig
        (some { model := none, max_turns := some 0 }) none).max_turns ≠ 0 := by
  refine ⟨rfl, by decide⟩

/-- C6 (amended): the `init_session` config is resolved field-by-field as
the first truthy value among explicit call argument, client-level default,
and built-in fallback (`"claude-sonnet-4"`, `100`); a supplied empty-string
model or zero `max_turns` is falsy and falls through to the next source. -/
theorem session_config_truthy_precedence (sc dc : Option SessionConfig) :
    (∀ m : String, m ≠ "" → sc.bind SessionConfig.model = some m →
      (WebSocketTransport.mergeSessionConfig sc dc).model = m)
  ∧ (∀ t : Nat, t ≠ 0 → sc.bind SessionConfig.max_turns = some t →
      (WebSocketTransport.mergeSessionConfig sc dc).max_turns = t)
  ∧ ((sc.bind SessionConfig.model = none ∨
        sc.bind SessionConfig.model = some "") →
      ∀ m : String, m ≠ "" → dc.bind SessionConfig.model = some m →
        (WebSocketTransport.mergeSessionConfig sc dc).model = m)
  ∧ ((sc.bind SessionConfig.max_turns = none ∨
        sc.bind SessionConfig.max_turns = some 0) →
      ∀ t : Nat, t ≠ 0 → dc.bind SessionConfig.max_turns = some t →
        (WebSocketTransport.mergeSessionConfig sc dc).max_turns = t)
  ∧ ((sc.bind SessionConfig.model = none ∨
        sc.bind SessionConfig.model = some "") →
      (dc.bind SessionConfig.model = none ∨
        dc.bind SessionConfig.model = some "") →
      (WebSocketTransport.mergeSessionConfig sc dc).model = "claude-sonnet-4")
  ∧ ((sc.bind SessionConfig.max_turns = none ∨
        sc.bind SessionConfig.max_turns = some 0) →
      (dc.bind SessionConfig.max_turns = none ∨
        dc.bind SessionConfig.max_turns = some 0) →
      (WebSocketTransport.mergeSessionConfig sc dc).max_turns = 100) := by
  refine ⟨?_, ?_, ?_, ?_, ?_, ?_⟩
  · intro m hm h
    simp [WebSocketTransport.mergeSessionConfig, h, jsOrStr, hm]
  · intro t ht h
    simp [WebSocketTransport.mergeSessionConfig, h, jsOrNat, ht]
  · intro hsc m hm h
    rcases hsc with hsc | hsc <;>
      simp [WebSocketTransport.mergeSessionConfig, hsc, h, jsOrStr, hm]
  · intro hsc t ht h
    rcases hsc with hsc | hsc <;>
      simp [WebSocketTransport.mergeSessionConfig, hsc, h, jsOrNat, ht]
  · intro hsc hdc
    rcases hsc with hsc | hsc <;> rcases hdc with hdc | hdc <;>
      simp [WebSocketTransport.mergeSessionConfig, hsc, hdc, jsOrStr]
  · intro hsc hdc
    rcases hsc with hsc | hsc <;> rcases hdc with hdc | hdc <;>
      simp [WebSocketTransport.mergeSessionConfig, hsc, hdc, jsOrNat]

/-- C6 witness: a truthy explicit config (`model "m1"`, `max_turns 7`) is
sent verbatim. -/
theorem session_config_truthy_precedence_witness :
    (WebSocketTransport.mergeSessionConfig
        (some { model := some "m1", max_turns := some 7 }) none).model = "m1"
  ∧ (WebSocketTransport.mergeSessionConfig
        (some { model := some "m1", max_turns := some 7 }) none).max_turns = 7 :=
  ⟨(session_config_truthy_precedence
      (some { model := some "m1", max_turns := some 7 }) none).1 "m1"
      (by decide) rfl,
   (session_config_truthy_precedence
      (some { model := some "m1", max_turns := some 7 }) none).2.1 7
      (by decide) rfl⟩

/-- C1: processing `content_block_start`, `content_block_delta("a")`,
`content_block_delta("b")`, `content_block_stop` issues, in exactly this
relative order, every listener's `onChunk("a")`, every `onChunk("b")`,
every `onComplete()`, then every main callback with an assistant message
whose content is `"ab"` — so each listener's `onComplete` precedes its main
callback for the completed message. -/
theorem streaming_order_invariant (st : TransportState) (r1 r2 r3 r4 : String) :
    (WebSocketTransport.processPayloads st
        [.frame (.stream_event .content_block_start) r1,
         .frame (.stream_event (.content_block_delta
            (some { type := "text_delta", text := some "a" }))) r2,
         .frame (.stream_event (.content_block_delta
            (some { type := "text_delta", text := some "b" }))) r3,
         .frame (.stream_event .content_block_stop) r4]).2
      = WebSocketTransport.broadcastChunk st.listeners "a"
        ++ WebSocketTransport.broadcastChunk st.listeners "b"
        ++ (WebSocketTransport.broadcastComplete st.listeners
            ++ WebSocketTransport.broadcastMessage st.listeners
                { conversationId := st.conversationId, role := "assistant",
                  content := "ab" }) := by
  have hab : (("" ++ "a" : String) ++ "b") = "ab" := rfl
  simp [WebSocketTransport.processPayloads, WebSocketTransport.handleMessage,
    WebSocketTransport.handleStreamEvent, StreamBuffer.start,
    StreamBuffer.append, StreamBuffer.complete, hab]

/-- C10: a `content_block_stop` with no open buffer for the current
conversation still runs the full completion sequence: every listener's
`onComplete`, then every main callback with a synthesized assistant message
whose content is the empty string — not ignored and not an error. -/
theorem stray_stop_synthesizes_empty_message (st : TransportState)
    (raw : String)
    (h : st.streamBuffer (StreamBuffer.getKey st.conversationId) = none) :
    (WebSocketTransport.handleMessage st
        (.frame (.stream_event .content_block_stop) raw)).2
      = WebSocketTransport.broadcastComplete st.listeners
        ++ WebSocketTransport.broadcastMessage st.listeners
            { conversationId := st.conversationId, role := "assistant",
              content := "" } := by
  simp [WebSocketTransport.handleMessage, WebSocketTransport.handleStreamEvent,
    StreamBuffer.complete, h]

/-- C10 witness: on a one-listener transport with an empty buffer, the
stray stop yields exactly `onComplete` then the main callback with content
`""`. -/
theorem stray_stop_synthesizes_empty_message_witness :
    (WebSocketTransport.handleMessage sampleState
        (.frame (.stream_event .content_block_stop) "r")).2
      = [Notification.onComplete 1,
         Notification.callback 1 0
           { conversationId := "c", role := "assistant", content := "" }] := by
  have h := stray_stop_synthesizes_empty_message sampleState "r" rfl
  rw [h]; rfl

/-- C3: a `result` frame with `subtype = "error"` or truthy `is_error`, and
an `error` frame, deliver no message to any main callback; each is reported
to every listener's `onError` stream callback as a `ParseError` whose
message is the frame's `result` string (`"Unknown error"` when that string
is empty, after the `||` default) respectively the frame's `error`
string. -/
theorem error_results_bypass_main_callback (st : TransportState)
    (raw subty res e : String) (ie : Bool)
    (h : subty = "error" ∨ ie = true) :
    (WebSocketTransport.handleMessage st
        (.frame (.result subty res ie) raw)).2
      = WebSocketTransport.broadcastError st.listeners
          (.parseError (if res = "" then "Unknown error" else res) raw)
  ∧ (∀ id cb m, Notification.callback id cb m ∉
        (WebSocketTransport.handleMessage st
          (.frame (.result subty res ie) raw)).2)
  ∧ (WebSocketTransport.handleMessage st (.frame (.error e) raw)).2
      = WebSocketTransport.broadcastError st.listeners (.parseError e raw)
  ∧ (∀ id cb m, Notification.callback id cb m ∉
        (WebSocketTransport.handleMessage st (.frame (.error e) raw)).2) := by
  have hres : (WebSocketTransport.handleMessage st
      (.frame (.result subty res ie) raw)).2
      = WebSocketTransport.broadcastError st.listeners
          (.parseError (if res = "" then "Unknown error" else res) raw) := by
    rcases h with h | h <;>
      simp [WebSocketTransport.handleMessage, ProtocolNormalizer.normalize,
        ProtocolNormalizer.normalizeResultMessage, h]
  refine ⟨hres, ?_, rfl, ?_⟩
  · intro id cb m
    rw [hres]
    exact callback_not_mem_broadcastError _ _ _ _ _
  · intro id cb m
    exact callback_not_mem_broadcastError _ _ _ _ _

/-- C3 witness: a `result` error frame on a one-listener transport yields
exactly one `onError` with a `ParseError` carrying the result string, and
that notification is not a main callback. -/
theorem error_results_bypass_main_callback_witness :
    (WebSocketTransport.handleMessage sampleState
        (.frame (.result "error" "bad" false) "r")).2
      = [Notification.onError 1 (.parseError "bad" "r")]
  ∧ Notification.callback 1 0
        { conversationId := "c", role := "assistant", content := "bad" }
      ∉ (WebSocketTransport.handleMessage sampleState
          (.frame (.result "error" "bad" false) "r")).2 := by
  have h := error_results_bypass_main_callback sampleState "r" "error" "bad"
    "boom" false (Or.inl rfl)
  exact ⟨by rw [h.1]; rfl, h.2.1 1 0 _⟩

/-- C7: `handleMessage` contains every processing failure (it is a total
function of the state and payload): an unparseable payload, and any frame
whose normalization throws, produce exactly an `onError` broadcast of a
`ParseError` carrying the raw payload string, and no main callback fires
for that payload. -/
theorem handle_message_catches_failures (st : TransportState)
    (emsg raw : String) (serverMsg : ServerMessage) (e : String)
    (hn : ProtocolNormalizer.normalize serverMsg st.conversationId
            = .error e) :
    (WebSocketTransport.handleMessage st (.invalidJson emsg raw)).2
      = WebSocketTransport.broadcastError st.listeners (.parseError emsg raw)
  ∧ (∀ id cb m, Notification.callback id cb m ∉
        (WebSocketTransport.handleMessage st (.invalidJson emsg raw)).2)
  ∧ (WebSocketTransport.handleMessage st (.frame serverMsg raw)).2
      = WebSocketTransport.broadcastError st.listeners (.parseError e raw)
  ∧ (∀ id cb m, Notification.callback id cb m ∉
        (WebSocketTransport.handleMessage st (.frame serverMsg raw)).2) := by
  have hfr : (WebSocketTransport.handleMessage st (.frame serverMsg raw)).2
      = WebSocketTransport.broadcastError st.listeners (.parseError e raw) := by
    cases serverMsg with
    | stream_event ev => simp [ProtocolNormalizer.normalize] at hn
    | system f => simp [ProtocolNormalizer.normalize] at hn
    | assistant c => simp [WebSocketTransport.handleMessage, hn]
    | media_result t m => simp [ProtocolNormalizer.normalize] at hn
    | result s r ie => simp [WebSocketTransport.handleMessage, hn]
    | error er => simp [WebSocketTransport.handleMessage, hn]
    | session_initialized c => simp [ProtocolNormalizer.normalize] at hn
    | unknown t => simp [ProtocolNormalizer.normalize] at hn
  refine ⟨rfl, ?_, hfr, ?_⟩
  · intro id cb m
    exact callback_not_mem_broadcastError _ _ _ _ _
  · intro id cb m
    rw [hfr]
    exact callback_not_mem_broadcastError _ _ _ _ _

/-- C7 witness: malformed JSON on a one-listener transport yields exactly
one `onError` with a `ParseError` carrying the raw payload, and a server
`error` frame (whose normalization throws) likewise. -/
theorem handle_message_catches_failures_witness :
    (WebSocketTransport.handleMessage sampleState
        (.invalidJson "Unexpected token" "not-json")).2
      = [Notification.onError 1 (.parseError "Unexpected token" "not-json")]
  ∧ (WebSocketTransport.handleMessage sampleState
        (.frame (.error "boom") "rawp")).2
      = [Notification.onError 1 (.parseError "boom" "rawp")] := by
  have h := handle_message_catches_failures sampleState "Unexpected token"
    "not-json" (.error "boom") "boom" rfl
  have h2 := handle_message_catches_failures sampleState "x" "rawp"
    (.error "boom") "boom" rfl
  exact ⟨by rw [h.1]; rfl, by rw [h2.2.2.1]; rfl⟩

/-- C8: starting from a transport with no listeners, `onMessage` assigns
fresh distinct integer ids; after registering L1 then L2 and running L1's
unsubscribe closure, dispatching an `assistant "hi"` frame invokes only
L2's callback; registering the same callback function twice yields two
entries of which unsubscribing the first leaves exactly the second; and a
listener registered after a dispatched frame appears in no notification of
that frame but receives the message of a later one. -/
theorem listener_registry_correctness (st0 : TransportState)
    (cb cb1 cb2 : Nat) (sc1 sc2 : Option StreamCallbackPresence)
    (raw : String) (h : st0.listeners = []) :
    let r1 := WebSocketTransport.onMessage st0 cb1 sc1
    let r2 := WebSocketTransport.onMessage r1.1 cb2 sc2
    let hiFrame : WebSocketTransport.RawPayload :=
      .frame (.assistant (some [⟨"text", some "hi", none⟩])) raw
    let hiMsg : Message :=
      { conversationId := st0.conversationId, role := "assistant",
        content := "hi" }
    (r1.2 ≠ r2.2)
  ∧ ((WebSocketTransport.handleMessage
        (WebSocketTransport.unsubscribe r2.1 r1.2) hiFrame).2
      = [Notification.callback r2.2 cb2 hiMsg])
  ∧ ((WebSocketTransport.unsubscribe
        (WebSocketTransport.onMessage
          (WebSocketTransport.onMessage st0 cb sc1).1 cb sc2).1
        (WebSocketTransport.onMessage st0 cb sc1).2).listeners
      = [{ id := (WebSocketTransport.onMessage
            (WebSocketTransport.onMessage st0 cb sc1).1 cb sc2).2,
           callback := cb, streamCallbacks := sc2 }])
  ∧ (∀ cbx m, Notification.callback r2.2 cbx m
        ∉ (WebSocketTransport.handleMessage r1.1 hiFrame).2)
  ∧ (Notification.callback r2.2 cb2 hiMsg
      ∈ (WebSocketTransport.handleMessage r2.1 hiFrame).2) := by
  have hhi : String.intercalate "\n" ["hi"] = "hi" := rfl
  refine ⟨?_, ?_, ?_, ?_, ?_⟩
  · simp [WebSocketTransport.onMessage]
  · simp [WebSocketTransport.onMessage, WebSocketTransport.unsubscribe,
      WebSocketTransport.handleMessage, ProtocolNormalizer.normalize,
      ProtocolNormalizer.normalizeAssistantMessage,
      WebSocketTransport.broadcastMessage, h, hhi]
  · simp [WebSocketTransport.onMessage, WebSocketTransport.unsubscribe, h]
  · intro cbx m
    simp [WebSocketTransport.onMessage, WebSocketTransport.handleMessage,
      ProtocolNormalizer.normalize,
      ProtocolNormalizer.normalizeAssistantMessage,
      WebSocketTransport.broadcastMessage, h, hhi]
  · simp [WebSocketTransport.onMessage, WebSocketTransport.handleMessage,
      ProtocolNormalizer.normalize,
      ProtocolNormalizer.normalizeAssistantMessage,
      WebSocketTransport.broadcastMessage, h, hhi]

/-- C8 witness: from a fresh transport, registering callbacks 7 then 8 and
unsubscribing the first, an `assistant "hi"` frame notifies only listener 2
(callback 8). -/
theorem listener_registry_correctness_witness :
    (WebSocketTransport.handleMessage
        (WebSocketTransport.unsubscribe
          (WebSocketTransport.onMessage
            (WebSocketTransport.onMessage freshState 7 none).1 8 none).1
          (WebSocketTransport.onMessage freshState 7 none).2)
        (.frame (.assistant (some [⟨"text", some "hi", none⟩])) "r")).2
      = [Notification.callback 2 8
          { conversationId := "c", role := "assistant", content := "hi" }] := by
  have h := (listener_registry_correctness freshState 7 7 8 none none "r"
    rfl).2.1
  simpa using h

end SeaverseChat
